import Mathlib

/-
Verification development for the MobileDeepColorization data pipeline
(`utils.py`).  The pipeline orchestration — globbing, sorting, batch
buffering, error skipping, TFRecord parsing, shuffle buffering, iterator
retry — is modelled concretely.  Numeric primitives delegated to external
libraries (skimage `imread`/`resize`, `rgb2lab`, `gray2rgb`, the MobileNet
forward pass, archive download) are modelled as abstract function fields of
an environment structure `Env`; theorems quantify over the environment and,
where the claim depends on a library contract (e.g. `resize` returns an
array of the requested shape), state that contract as an explicit
hypothesis.

Machine floats are modelled as rational numbers; file names and paths are
modelled as lists of characters.
-/

namespace MobileDeepColorization

/-- A file name (or relative path); a path below a subdirectory contains
the character `/`. -/
abbrev FileName := List Char

/-- A dense numeric array: a shape together with the flattened data.
Models the numpy arrays flowing through the pipeline. -/
structure Arr where
  dims : List Nat
  data : List ℚ
deriving DecidableEq

/-- One serialized example of the record file: the three float lists keyed
`image_l`, `image_ab`, `image_features` (utils.py lines 178-182). -/
structure TFRecord where
  image_l : List ℚ
  image_ab : List ℚ
  image_features : List ℚ
deriving DecidableEq

instance : Inhabited TFRecord := ⟨⟨[], [], []⟩⟩

/-! ### Lexicographic order on file names and Python `sorted`

Python's `sorted` on strings orders lexicographically by code point.  The
builder sorts full paths sharing the common prefix `images_path + "/"`, so
sorting the relative names is equivalent. -/

/-- Lexicographic comparison of file names by character code point. -/
def nameLe : FileName → FileName → Bool
  | [], _ => true
  | _ :: _, [] => false
  | a :: as, b :: bs => if a = b then nameLe as bs else decide (a < b)

/-- Insert a name into a sorted list, keeping earlier equal keys first
(stability, as in Python's sort). -/
def insertName (x : FileName) : List FileName → List FileName
  | [] => [x]
  | y :: ys => if nameLe x y then x :: y :: ys else y :: insertName x ys

/-- Model of `sorted(files)` (utils.py line 124): a stable sort by
`nameLe`. -/
def sortNames : List FileName → List FileName
  | [] => []
  | x :: xs => insertName x (sortNames xs)

/-! ### The glob pattern `*.jpg`

`glob.glob(images_path + "/*.jpg")` (utils.py line 123) enumerates the
directory's top-level entries whose name matches the pattern `*.jpg`
under `fnmatch` semantics (case sensitive; `*` matches any characters)
and whose name does not begin with a dot (glob hides such entries). -/

/-- Star step of the glob matcher: try matching the rest of the pattern
(`matchRest`) at every suffix of the name. -/
def globStar (matchRest : List Char → Bool) : List Char → Bool
  | [] => matchRest []
  | c :: cs => matchRest (c :: cs) || globStar matchRest cs

/-- Generic matcher for glob patterns built from literal characters and
`*` (which matches any, possibly empty, sequence of characters). -/
def globMatch : List Char → List Char → Bool
  | [], n => n.isEmpty
  | p :: ps, n =>
    if p = '*' then globStar (globMatch ps) n
    else
      match n with
      | [] => false
      | c :: cs => (p = c) && globMatch ps cs

/-- The literal pattern `*.jpg`. -/
def jpgPat : List Char := ['*', '.', 'j', 'p', 'g']

/-- The literal suffix `.jpg`. -/
def jpgSuf : List Char := ['.', 'j', 'p', 'g']

/-- Whether `glob.glob(images_path + "/*.jpg")` returns this entry:
it must be a top-level entry (no `/` in the relative path), must not be
hidden (leading dot), and must match the pattern `*.jpg`. -/
def globMatchJpg (n : FileName) : Bool :=
  !(n.contains '/') &&
    (match n with
     | [] => false
     | c :: _ => !(c = '*') && !(c = '.')) &&
    globMatch jpgPat n

/-- The list of entries of the images directory returned by the glob,
in directory order. -/
def globJpg (listing : List FileName) : List FileName :=
  listing.filter globMatchJpg

/-! ### Normalization arithmetic (Colorspace Converter)

The scalar maps applied elementwise by `_process_batch` (lines 197-198),
`prepare_input_image_batch` (line 407) and `postprocess_output`
(lines 423-424). -/

/-- Normalization `X_batch = 2 * X_batch / 100 - 1` (lines 197 and 407). -/
def normalize_l (x : ℚ) : ℚ := 2 * x / 100 - 1

/-- Normalization `Y_batch = lab_batch[:, :, :, 1:] / 127` (line 198). -/
def normalize_ab (x : ℚ) : ℚ := x / 127

/-- Rescaling `X_lab = (X_lab + 1) * 50.` (line 424). -/
def postprocess_l (x : ℚ) : ℚ := (x + 1) * 50

/-- Rescaling `y *= 127.` (line 423). -/
def postprocess_ab (y : ℚ) : ℚ := y * 127

/-- Apply a scalar map elementwise to an array (numpy broadcasting). -/
def mapArr (f : ℚ → ℚ) (a : Arr) : Arr := ⟨a.dims, a.data.map f⟩

/-! ### External environment

The configuration constants `IMAGE_SIZE` and `EMBEDDING_IMAGE_SIZE` and the
library primitives referenced by `utils.py` but implemented elsewhere.
`readAndResize n f` models the body of the `try` block at lines 136-137
(`imread(fn)` followed by `resize(X, (n, n, 3), mode='constant')`): `none`
means the image is corrupted/unreadable or the resize raised.  `resizeTo`
models `skimage.transform.resize` applied to an in-memory array (lines
175-176, 215), which does not fail on such input.  `labL`/`labAB` model
`rgb2lab` followed by taking channel 0 (reshaped to a trailing axis of 1)
respectively channels 1: (lines 194-196, 198); `gray3` models
`gray2rgb(rgb2gray(X))` (line 193); `predict` models the MobileNet forward
pass including its input scaling (lines 218-223), returning the flattened
pre-softmax activations of one image. -/
structure Env where
  IMAGE_SIZE : Nat
  EMBEDDING_IMAGE_SIZE : Nat
  readAndResize : Nat → FileName → Option Arr
  resizeTo : Arr → List Nat → Arr
  labL : Arr → Arr
  labAB : Arr → Arr
  gray3 : Arr → Arr
  predict : Arr → List ℚ
  download_and_save_zip : FileName → FileName

/-! ### Record Builder (`_generate_records`, `_serialize_batch`,
`_process_batch`, `_extract_features`) -/

/-- Model of `_extract_features` for one image (lines 206-225): resize the
grayscale image to the MobileNet input size, run the network, and reshape
the activations to a row of length 1000. -/
def extract_features (env : Env) (g : Arr) : Arr :=
  ⟨[1000],
    env.predict
      (env.resizeTo g
        [env.EMBEDDING_IMAGE_SIZE, env.EMBEDDING_IMAGE_SIZE, 3])⟩

/-- Model of `_process_batch` restricted to one image (lines 187-201): the
normalized L channel, the MobileNet features of the grayscale replica and
the normalized AB channels.  `rgb2lab`, channel slicing and the network
act independently on each image of the batch, so the batch version is the
elementwise map of this function. -/
def processImage (env : Env) (X : Arr) : Arr × Arr × Arr :=
  (mapArr normalize_l (env.labL X),
   extract_features env (env.gray3 X),
   mapArr normalize_ab (env.labAB X))

/-- The record written for one image by `_serialize_batch` (lines 173-185):
the L plane resized to `(IMAGE_SIZE, IMAGE_SIZE, 1)`, the AB planes resized
to `(IMAGE_SIZE, IMAGE_SIZE, 2)`, and the features, each flattened. -/
def recordOfImage (env : Env) (X : Arr) : TFRecord :=
  let t := processImage env X
  ⟨(env.resizeTo t.1 [env.IMAGE_SIZE, env.IMAGE_SIZE, 1]).data,
   (env.resizeTo t.2.2 [env.IMAGE_SIZE, env.IMAGE_SIZE, 2]).data,
   t.2.1.data⟩

/-- The decode step of the builder loop (lines 131, 136-139): read the
image and resize it to the larger of the embedding input size and the
model input size; `none` when the `try` block raised. -/
def builderDecode (env : Env) (f : FileName) : Option Arr :=
  env.readAndResize (max env.EMBEDDING_IMAGE_SIZE env.IMAGE_SIZE) f

/-- The builder's main loop (lines 133-158): stream the files, skip the
ones that fail to decode, buffer the decoded images, serialize the buffer
whenever it reaches `batchSize` images, and flush the final partial
buffer.  Returns the sequence of records written. -/
def buildLoop (env : Env) (batchSize : Nat) :
    List FileName → List Arr → List TFRecord → List TFRecord
  | [], buffer, written => written ++ buffer.map (recordOfImage env)
  | f :: rest, buffer, written =>
    match builderDecode env f with
    | none => buildLoop env batchSize rest buffer written
    | some X =>
      let buffer1 := buffer ++ [X]
      if batchSize ≤ buffer1.length then
        buildLoop env batchSize rest []
          (written ++ buffer1.map (recordOfImage env))
      else
        buildLoop env batchSize rest buffer1 written

/-- The observable outcome of one `_generate_records` run:
the exit status when the process terminated early via `exit`, the content
of the output path afterwards, whether a `TFRecordWriter` was opened, and
the value of `nb_files` (`none` when the run exited before line 125). -/
structure BuildOutcome where
  exitCode : Option Nat
  outContent : Option (List TFRecord)
  writerOpened : Bool
  nbFiles : Option Nat
deriving DecidableEq

/-- Model of `_generate_records` (lines 110-161).  `oldContent` is the content of
the output path before the run (`none`: no such file); `listing` is the
images directory tree as relative paths.  If the output path exists the
run prints and calls `exit(0)` before globbing or opening a writer
(lines 119-121); otherwise it globs `*.jpg`, sorts, opens the writer and
runs the loop. -/
def generate_records (env : Env) (oldContent : Option (List TFRecord))
    (listing : List FileName) (batchSize : Nat) : BuildOutcome :=
  match oldContent with
  | some c => ⟨some 0, some c, false, none⟩
  | none =>
    let files := sortNames (globJpg listing)
    ⟨none, some (buildLoop env batchSize files [] []), true,
      some files.length⟩

/-! ### Record Reader / Batch Generator (`_construct_dataset`,
`train_generator`, `val_batch_generator`) -/

/-- Whether a serialized record satisfies the `FixedLenFeature` shapes of
`parse_record` (lines 256-262). -/
def wellFormedRecord (S : Nat) (r : TFRecord) : Bool :=
  (r.image_l.length == S * S * 1) && (r.image_ab.length == S * S * 2) &&
    (r.image_features.length == 1000)

/-- Model of `parse_record` (lines 254-265): parsing succeeds exactly when the three
stored float lists have the fixed lengths, and yields tensors of the fixed
shapes `(S, S, 1)`, `(S, S, 2)`, `(1000,)`. -/
def parse_record (S : Nat) (r : TFRecord) : Option (Arr × Arr × Arr) :=
  if wellFormedRecord S r then
    some (⟨[S, S, 1], r.image_l⟩, ⟨[S, S, 2], r.image_ab⟩,
      ⟨[1000], r.image_features⟩)
  else none

/-- The record at position `i` of the infinitely repeated file
(`dataset.repeat()`, line 269). -/
def cycleRecord (recs : List TFRecord) (i : Nat) : TFRecord :=
  recs.getD (i % recs.length) default

/-- The `k`-th batch of `dataset.repeat().batch(batch_size)` (lines
269-270): `B` consecutive records of the repeated stream. -/
def batchAt (recs : List TFRecord) (B k : Nat) : List TFRecord :=
  (List.range B).map (fun j => cycleRecord recs (k * B + j))

/-- State of `dataset.shuffle(buffer_size=5)` (line 271) before the `k`-th
emission: the 5-slot buffer of pending batches and the upstream position
(how many batches the repeated/batched stream has produced so far).
The buffer is first filled with the batches 0..4; each emission, driven by
the random slot choice `pick k`, outputs the chosen slot and refills it
with the next upstream batch. -/
def shuffleState (recs : List TFRecord) (B : Nat) (pick : Nat → Fin 5) :
    Nat → (Fin 5 → List TFRecord) × Nat
  | 0 => (fun i => batchAt recs B i.val, 5)
  | k + 1 =>
    let s := shuffleState recs B pick k
    (Function.update s.1 (pick k) (batchAt recs B s.2), s.2 + 1)

/-- The batch emitted by the shuffled dataset at step `k`. -/
def shuffleEmit (recs : List TFRecord) (B : Nat) (pick : Nat → Fin 5)
    (k : Nat) : List TFRecord :=
  (shuffleState recs B pick k).1 (pick k)

/-- One turn of the `while True` loop of `train_generator` (lines
297-308).  `fetch i` is the result of `sess.run(next_batch)` when the
iterator stands at position `i` of the dataset: a batch, or a raised
fault.  On success the batch is yielded and the iterator advances; on a
fault the generator builds a fresh initialized iterator over the same
dataset and fetches from position 0 — that second fetch is outside any
`try`, so its fault propagates. -/
def train_generator_step {ε β : Type} (fetch : Nat → Except ε β)
    (pos : Nat) : Except ε (β × Nat) :=
  match fetch pos with
  | Except.ok b => Except.ok (b, pos + 1)
  | Except.error _ =>
    match fetch 0 with
    | Except.ok b => Except.ok (b, 1)
    | Except.error e => Except.error e

/-- One turn of the `while True` loop of `val_batch_generator` (lines
323-334); the code is identical to `train_generator` apart from the
record path. -/
def val_batch_generator_step {ε β : Type} (fetch : Nat → Except ε β)
    (pos : Nat) : Except ε (β × Nat) :=
  match fetch pos with
  | Except.ok b => Except.ok (b, pos + 1)
  | Except.error _ =>
    match fetch 0 with
    | Except.ok b => Except.ok (b, 1)
    | Except.error e => Except.error e

/-- The precondition check of `train_generator` (lines 289-292): when the
training record file is missing the process prints and exits with status
0; otherwise no exit happens. -/
def train_generator_precheck (recordFileExists : Bool) : Option Nat :=
  if recordFileExists then none else some 0

/-- The precondition check of `val_batch_generator` (lines 315-318). -/
def val_batch_generator_precheck (recordFileExists : Bool) : Option Nat :=
  if recordFileExists then none else some 0

/-! ### `save_data_tfrecord` and the Google-Drive download -/

/-- The action `save_data_tfrecord` dispatches to. -/
inductive SaveAction where
  | driveDownload (fileId destination : FileName)
  | buildRecords (imagesPath recordPath : FileName) (batchSize : Nat)
deriving DecidableEq

/-- Python truthiness of the optional `google_drive_file_id` argument:
`None` and the empty string are falsy. -/
def pyTruthy : Option FileName → Bool
  | none => false
  | some s => !s.isEmpty

/-- Model of `save_data_tfrecord` (lines 51-58): with a truthy drive file id, the
download is written straight to the record path; otherwise the zip is
downloaded/extracted and `_generate_records` runs with batch size 100. -/
def save_data_tfrecord (env : Env) (tfrecord_path dataset_url : FileName)
    (google_drive_file_id : Option FileName) : SaveAction :=
  if pyTruthy google_drive_file_id then
    SaveAction.driveDownload (google_drive_file_id.getD []) tfrecord_path
  else
    SaveAction.buildRecords (env.download_and_save_zip dataset_url)
      tfrecord_path 100

/-- Concatenation of a chunk stream. -/
def joinChunks : List (List Nat) → List Nat
  | [] => []
  | c :: t => c ++ joinChunks t

/-- Model of `save_response_content` (lines 67-72): the bytes written to the
destination file — the downloaded chunks, skipping falsy (empty,
keep-alive) chunks, concatenated in order. -/
def save_response_content (chunks : List (List Nat)) : List Nat :=
  joinChunks (chunks.filter (fun c => !c.isEmpty))

/-! ### Concrete instantiation used to evaluate the model -/

/-- A small concrete environment: model input size 2, embedding input
size 3, and external primitives with the shapes the libraries guarantee. -/
def defaultEnv : Env where
  IMAGE_SIZE := 2
  EMBEDDING_IMAGE_SIZE := 3
  readAndResize := fun n _ => some ⟨[n, n, 3], []⟩
  resizeTo := fun _ s => ⟨s, List.replicate s.prod 0⟩
  labL := fun a => a
  labAB := fun a => a
  gray3 := fun a => a
  predict := fun _ => List.replicate 1000 0
  download_and_save_zip := fun n => n

/-- The file name `a.jpg`. -/
def wNameA : FileName := ['a', '.', 'j', 'p', 'g']

/-- The file name `b.jpg`. -/
def wNameB : FileName := ['b', '.', 'j', 'p', 'g']

/-- The file name `a.jpeg` (extension not matched by the glob). -/
def wNameBad : FileName := ['a', '.', 'j', 'p', 'e', 'g']

/-- A directory listing in non-sorted order. -/
def wListing : List FileName := [wNameB, wNameA]

/-- A decoded image at the builder's working size 3. -/
def wImg : Arr := ⟨[3, 3, 3], []⟩

/-- A record produced by the builder from `wImg`. -/
def wRecord : TFRecord := recordOfImage defaultEnv wImg

/-- A fetch oracle that succeeds at position 0 and faults elsewhere. -/
def wFetch : Nat → Except Nat Nat :=
  fun i => if i = 0 then Except.ok 7 else Except.error 1

/-- A two-record file whose records satisfy the parse shapes for
`IMAGE_SIZE = 1`. -/
def wRecs : List TFRecord :=
  [⟨[0], [0, 0], List.replicate 1000 0⟩,
   ⟨[1], [1, 1], List.replicate 1000 0⟩]

/-- A shuffle slot choice sequence. -/
def wPick : Nat → Fin 5 := fun _ => 0

/-! ### Helper lemmas -/

/-- Scalar round trip for the luminance channel. -/
lemma post_norm_l (x : ℚ) : postprocess_l (normalize_l x) = x := by
  unfold postprocess_l normalize_l; ring

/-- Scalar round trip for the chrominance channels. -/
lemma post_norm_ab (x : ℚ) : postprocess_ab (normalize_ab x) = x := by
  unfold postprocess_ab normalize_ab; ring

/-- Closed form of the builder loop: buffering and flushing in batches
writes exactly the decodable images, in input order. -/
lemma buildLoop_eq (env : Env) (B : Nat) (files : List FileName) :
    ∀ (buffer : List Arr) (written : List TFRecord),
      buildLoop env B files buffer written =
        written ++
          (buffer ++ files.filterMap (builderDecode env)).map
            (recordOfImage env) := by
  induction files with
  | nil => intro buffer written; simp [buildLoop]
  | cons f rest ih =>
    intro buffer written
    cases h : builderDecode env f with
    | none =>
      simp only [buildLoop, h, List.filterMap_cons]
      exact ih buffer written
    | some X =>
      simp only [buildLoop, h, List.filterMap_cons]
      by_cases hb : B ≤ (buffer ++ [X]).length
      · rw [if_pos hb, ih]
        simp [List.append_assoc, List.map_append]
      · rw [if_neg hb, ih]
        simp [List.append_assoc]

/-- The number of kept elements of a `filterMap`. -/
lemma length_filterMap_isSome {α β : Type} (g : α → Option β)
    (l : List α) :
    (l.filterMap g).length =
      (l.filter (fun a => (g a).isSome)).length := by
  induction l with
  | nil => rfl
  | cons a t ih =>
    cases h : g a <;> simp [List.filterMap_cons, List.filter_cons, h, ih]

/-- Insertion adds one element to the length. -/
lemma insertName_length (x : FileName) (l : List FileName) :
    (insertName x l).length = l.length + 1 := by
  induction l with
  | nil => rfl
  | cons y ys ih => by_cases h : nameLe x y <;> simp [insertName, h, ih]

/-- Sorting keeps the number of files. -/
lemma sortNames_length (l : List FileName) :
    (sortNames l).length = l.length := by
  induction l with
  | nil => rfl
  | cons x xs ih => simp [sortNames, insertName_length, ih]

/-- On a list where every element decodes, `filterMap` is a `map`. -/
lemma filterMap_eq_map_of_forall {α β : Type} (g : α → Option β)
    (img : α → β) (l : List α) (h : ∀ a ∈ l, g a = some (img a)) :
    l.filterMap g = l.map img := by
  induction l with
  | nil => rfl
  | cons a t ih =>
    have ha := h a (List.mem_cons_self a t)
    simp [List.filterMap_cons, ha,
      ih (fun b hb => h b (List.mem_cons_of_mem a hb))]

/-- A name matched by the literal part `.jpg` is that suffix itself. -/
lemma globMatch_jpgSuf (m : List Char) :
    globMatch jpgSuf m = true → m = jpgSuf := by
  rcases m with _ | ⟨c1, _ | ⟨c2, _ | ⟨c3, _ | ⟨c4, t⟩⟩⟩⟩ <;>
    intro h <;> simp [globMatch, jpgSuf] at h ⊢
  obtain ⟨h1, h2, h3, h4, h5⟩ := h
  exact ⟨h1.symm, h2.symm, h3.symm, h4.symm, h5⟩

/-- A name matched by the glob pattern `*.jpg` ends with `.jpg`. -/
lemma globMatch_jpgPat_suffix :
    ∀ n : List Char, globMatch jpgPat n = true → jpgSuf <:+ n := by
  intro n
  induction n with
  | nil => intro h; simp [globMatch, globStar, jpgPat, jpgSuf] at h
  | cons c cs ih =>
    intro h
    have hstep : globMatch jpgPat (c :: cs) =
        (globMatch jpgSuf (c :: cs) || globMatch jpgPat cs) := rfl
    rw [hstep] at h
    cases Bool.or_eq_true_iff.mp h with
    | inl h1 => exact globMatch_jpgSuf _ h1 ▸ List.suffix_refl _
    | inr h2 => exact (ih h2).trans (List.suffix_cons c cs)

/-- After `k` emissions the shuffle buffer has consumed `k + 5` batches
from the repeated/batched stream. -/
lemma shuffleState_snd (recs : List TFRecord) (B : Nat)
    (pick : Nat → Fin 5) (k : Nat) :
    (shuffleState recs B pick k).2 = k + 5 := by
  induction k with
  | zero => rfl
  | succ k ih => simp only [shuffleState, ih]

/-- Every slot of the shuffle buffer holds some batch of the
repeated/batched stream. -/
lemma shuffleState_buf (recs : List TFRecord) (B : Nat)
    (pick : Nat → Fin 5) (k : Nat) (i : Fin 5) :
    ∃ m, (shuffleState recs B pick k).1 i = batchAt recs B m := by
  induction k with
  | zero => exact ⟨i.val, rfl⟩
  | succ k ih =>
    simp only [shuffleState]
    by_cases h : i = pick k
    · subst h
      exact ⟨(shuffleState recs B pick k).2, by simp⟩
    · obtain ⟨m, hm⟩ := ih
      exact ⟨m, by rw [Function.update_noteq h]; exact hm⟩

/-- Every record of the repeated stream is a record of the file. -/
lemma cycleRecord_mem (recs : List TFRecord) (hN : 0 < recs.length)
    (i : Nat) : cycleRecord recs i ∈ recs := by
  unfold cycleRecord
  rw [List.getD_eq_getElem recs default (Nat.mod_lt i hN)]
  exact List.getElem_mem _

/-- Every record of any batch of the stream is a record of the file. -/
lemma batchAt_mem (recs : List TFRecord) (B k : Nat)
    (hN : 0 < recs.length) :
    ∀ r ∈ batchAt recs B k, r ∈ recs := by
  intro r hr
  simp only [batchAt, List.mem_map, List.mem_range] at hr
  obtain ⟨j, _, rfl⟩ := hr
  exact cycleRecord_mem recs hN _

/-! ### Claims -/

/-- C2: composing the test-time normalization (`2*L/100 - 1` for
luminance, division by 127 for chrominance) with the postprocessing
rescaling (`(X_lab + 1) * 50`, `y * 127`) reconstructs the original
channels exactly (rationals model the floats, so the round trip is
exact), and the normalizations map `[0, 100]` respectively `[-127, 127]`
onto `[-1, 1]` with the postprocess maps as their inverses. -/
theorem c2_normalization_roundtrip :
    (∀ x : ℚ, postprocess_l (normalize_l x) = x) ∧
    (∀ x : ℚ, postprocess_ab (normalize_ab x) = x) ∧
    (∀ a : Arr, mapArr postprocess_l (mapArr normalize_l a) = a) ∧
    (∀ a : Arr, mapArr postprocess_ab (mapArr normalize_ab a) = a) ∧
    (∀ x : ℚ, (0 ≤ x ∧ x ≤ 100) ↔
      (-1 ≤ normalize_l x ∧ normalize_l x ≤ 1)) ∧
    (∀ x : ℚ, (-127 ≤ x ∧ x ≤ 127) ↔
      (-1 ≤ normalize_ab x ∧ normalize_ab x ≤ 1)) := by
  refine ⟨post_norm_l, post_norm_ab, ?_, ?_, ?_, ?_⟩
  · intro a
    cases a with
    | mk dims data => simp [mapArr, List.map_map, Function.comp_def, post_norm_l]
  · intro a
    cases a with
    | mk dims data => simp [mapArr, List.map_map, Function.comp_def, post_norm_ab]
  · intro x
    unfold normalize_l
    constructor
    · rintro ⟨h1, h2⟩; constructor <;> linarith
    · rintro ⟨h1, h2⟩; constructor <;> linarith
  · intro x
    unfold normalize_ab
    constructor
    · rintro ⟨h1, h2⟩; constructor <;> linarith
    · rintro ⟨h1, h2⟩; constructor <;> linarith

/-- C4: invoked while the output path already exists, the Record Builder
exits (with status 0) before opening a writer and before globbing the
images directory, and the pre-existing content is returned unchanged —
for every directory listing and batch size, i.e. independently of them. -/
theorem c4_refuses_existing_output (env : Env) (old : List TFRecord)
    (listing : List FileName) (B : Nat) :
    generate_records env (some old) listing B =
      ⟨some 0, some old, false, none⟩ := rfl

/-- C8: each operator-facing fatal precondition failure — the builder's
refusal on an existing output file and the two generators' missing
record file checks — terminates the process with exit status 0. -/
theorem c8_exit_status_zero :
    (∀ (env : Env) (old : List TFRecord) (listing : List FileName)
        (B : Nat),
      (generate_records env (some old) listing B).exitCode = some 0) ∧
    train_generator_precheck false = some 0 ∧
    val_batch_generator_precheck false = some 0 :=
  ⟨fun _ _ _ _ => rfl, rfl, rfl⟩

/-- C6: in both batch generators a fetch fault is caught exactly once:
a successful fetch is yielded and the iterator advances; on a fault the
generator fetches position 0 of a fresh iterator and yields that batch;
if that immediately following fetch also faults, the fault propagates. -/
theorem c6_generator_single_retry {ε β : Type} :
    (∀ (fetch : Nat → Except ε β) (pos : Nat) (b : β),
        fetch pos = Except.ok b →
          train_generator_step fetch pos = Except.ok (b, pos + 1) ∧
          val_batch_generator_step fetch pos = Except.ok (b, pos + 1)) ∧
    (∀ (fetch : Nat → Except ε β) (pos : Nat) (e : ε) (b : β),
        fetch pos = Except.error e → fetch 0 = Except.ok b →
          train_generator_step fetch pos = Except.ok (b, 1) ∧
          val_batch_generator_step fetch pos = Except.ok (b, 1)) ∧
    (∀ (fetch : Nat → Except ε β) (pos : Nat) (e e' : ε),
        fetch pos = Except.error e → fetch 0 = Except.error e' →
          train_generator_step fetch pos = Except.error e' ∧
          val_batch_generator_step fetch pos = Except.error e') := by
  refine ⟨?_, ?_, ?_⟩
  · intro fetch pos b h
    constructor <;> simp [train_generator_step, val_batch_generator_step, h]
  · intro fetch pos e b h h0
    constructor <;>
      simp [train_generator_step, val_batch_generator_step, h, h0]
  · intro fetch pos e e' h h0
    constructor <;>
      simp [train_generator_step, val_batch_generator_step, h, h0]

/-- Witness for C6: a concrete fetch oracle that faults at position 3 and
succeeds at position 0; the generator step yields the recovered batch. -/
theorem c6_generator_single_retry_witness :
    wFetch 3 = Except.error 1 ∧ wFetch 0 = Except.ok 7 ∧
    train_generator_step wFetch 3 = Except.ok (7, 1) ∧
    val_batch_generator_step wFetch 3 = Except.ok (7, 1) :=
  ⟨rfl, rfl, (c6_generator_single_retry.2.1 wFetch 3 1 7 rfl rfl).1,
    (c6_generator_single_retry.2.1 wFetch 3 1 7 rfl rfl).2⟩

/-- C10: with a (truthy) Google-Drive file id, `save_data_tfrecord`
dispatches to the drive download writing straight to the record path —
no image decoding, feature extraction or record generation — and the
bytes written are exactly the downloaded chunks concatenated; the
`_generate_records` pipeline with batch size 100 runs only on the
URL/zip branch, where the file id is absent. -/
theorem c10_drive_branch_no_pipeline (env : Env)
    (tfrecord_path dataset_url fileId : FileName) (hid : fileId ≠ []) :
    save_data_tfrecord env tfrecord_path dataset_url (some fileId) =
      SaveAction.driveDownload fileId tfrecord_path ∧
    save_data_tfrecord env tfrecord_path dataset_url none =
      SaveAction.buildRecords (env.download_and_save_zip dataset_url)
        tfrecord_path 100 ∧
    ∀ chunks : List (List Nat),
      save_response_content chunks = joinChunks chunks := by
  refine ⟨?_, rfl, ?_⟩
  · cases fileId with
    | nil => exact absurd rfl hid
    | cons c t => rfl
  · intro chunks
    unfold save_response_content
    induction chunks with
    | nil => rfl
    | cons c t ih =>
      cases c with
      | nil => simp [List.filter_cons, joinChunks, ih]
      | cons b bs => simp [List.filter_cons, joinChunks, ih]

/-- Witness for C10: a concrete nonempty file id dispatches to the drive
download targeting the record path. -/
theorem c10_drive_branch_no_pipeline_witness :
    (['x'] : FileName) ≠ [] ∧
    save_data_tfrecord defaultEnv wNameA wNameB (some ['x']) =
      SaveAction.driveDownload ['x'] wNameA :=
  ⟨by decide,
    (c10_drive_branch_no_pipeline defaultEnv wNameA wNameB ['x']
      (by decide)).1⟩

/-- C1: for a directory whose globbed images all decode and any batch
size, the Record Builder writes exactly one record per image — `N`
records for `N` images, the final partial batch included (the closed
form holds for every `B`) — and the record sequence is the image files
in sorted path order, each mapped through the serialization. -/
theorem c1_record_builder_count_and_order (env : Env)
    (listing : List FileName) (B : Nat) (img : FileName → Arr)
    (hvalid : ∀ f ∈ sortNames (globJpg listing),
      builderDecode env f = some (img f)) :
    (generate_records env none listing B).outContent =
      some ((sortNames (globJpg listing)).map
        (fun f => recordOfImage env (img f))) ∧
    ((generate_records env none listing B).outContent.getD []).length =
      (globJpg listing).length := by
  have key : buildLoop env B (sortNames (globJpg listing)) [] [] =
      (sortNames (globJpg listing)).map
        (fun f => recordOfImage env (img f)) := by
    rw [buildLoop_eq]
    simp [filterMap_eq_map_of_forall _ img _ hvalid, List.map_map,
      Function.comp_def]
  constructor
  · simp [generate_records, key]
  · simp [generate_records, key, sortNames_length]

/-- Witness for C1: two valid images listed out of order, batch size 3
(so the whole run is one final partial batch); the output is the two
records in sorted order. -/
theorem c1_record_builder_count_and_order_witness :
    (∀ f ∈ sortNames (globJpg wListing),
      builderDecode defaultEnv f = some ((fun _ => wImg) f)) ∧
    (generate_records defaultEnv none wListing 3).outContent =
      some ((sortNames (globJpg wListing)).map
        (fun f => recordOfImage defaultEnv ((fun _ => wImg) f))) ∧
    ((generate_records defaultEnv none wListing 3).outContent.getD
      []).length = (globJpg wListing).length :=
  ⟨by decide,
    c1_record_builder_count_and_order defaultEnv wListing 3
      (fun _ => wImg) (by decide)⟩

/-- C5: images that fail to decode or resize are skipped — the run does
not exit, every decodable image contributes exactly one record in order,
and the record count is the number of decodable images rather than the
number of globbed files. -/
theorem c5_skips_invalid_images (env : Env) (listing : List FileName)
    (B : Nat) :
    (generate_records env none listing B).exitCode = none ∧
    (generate_records env none listing B).outContent =
      some ((sortNames (globJpg listing)).filterMap
        (fun f => (builderDecode env f).map (recordOfImage env))) ∧
    ((generate_records env none listing B).outContent.getD []).length =
      ((sortNames (globJpg listing)).filter
        (fun f => (builderDecode env f).isSome)).length := by
  have key : buildLoop env B (sortNames (globJpg listing)) [] [] =
      (sortNames (globJpg listing)).filterMap
        (fun f => (builderDecode env f).map (recordOfImage env)) := by
    rw [buildLoop_eq]
    simp [List.map_filterMap]
  refine ⟨rfl, ?_, ?_⟩
  · simp [generate_records, key]
  · simp [generate_records, key, length_filterMap_isSome]

/-- C9: the builder enumerates only top-level entries matching the glob
`*.jpg`: inserting a path that lies in a subdirectory or does not end in
the exact suffix `.jpg` (case sensitive) anywhere into the listing
changes nothing — not the records, not `nb_files`, and the entry is not
treated as a corrupted image. -/
theorem c9_glob_top_level_jpg_only (env : Env) (l1 l2 : List FileName)
    (p : FileName) (B : Nat)
    (hp : p.contains '/' = true ∨ ¬ jpgSuf <:+ p) :
    generate_records env none (l1 ++ p :: l2) B =
      generate_records env none (l1 ++ l2) B := by
  have hfalse : globMatchJpg p = false := by
    cases hp with
    | inl h => unfold globMatchJpg; rw [h]; rfl
    | inr h =>
      cases hm : globMatch jpgPat p with
      | false => simp [globMatchJpg, hm]
      | true => exact absurd (globMatch_jpgPat_suffix p hm) h
  have hglob : globJpg (l1 ++ p :: l2) = globJpg (l1 ++ l2) := by
    simp [globJpg, List.filter_append, List.filter_cons, hfalse]
  simp [generate_records, hglob]

/-- Witness for C9: adding `a.jpeg` (wrong extension) to a directory
with one valid image leaves the builder outcome unchanged. -/
theorem c9_glob_top_level_jpg_only_witness :
    (wNameBad.contains '/' = true ∨ ¬ jpgSuf <:+ wNameBad) ∧
    generate_records defaultEnv none ([wNameA] ++ wNameBad :: []) 1 =
      generate_records defaultEnv none ([wNameA] ++ []) 1 :=
  ⟨Or.inr (by decide),
    c9_glob_top_level_jpg_only defaultEnv [wNameA] [] wNameBad 1
      (Or.inr (by decide))⟩

/-- C3: for a well-formed record file of `N` records and batch size `B`
dividing `N`, the generator's shuffled stream yields, at every step and
for every shuffle choice sequence, a batch of `B` records each parsing
to tensors of shape `(S, S, 1)`, `(S, S, 2)` and `(1000,)` — hence
stacked batch shapes `(B, S, S, 1)`, `(B, S, S, 2)`, `(B, 1000)`,
indefinitely; the underlying repeated stream has cycled back after `N/B`
batches — its batch `N/B` equals its batch `0` by content — and the
shuffle (a 5-batch buffer) has consumed `k + 5` upstream batches after
`k` emissions, so after `N/B` emissions the source has wrapped past the
first record. -/
theorem c3_batch_generator_shapes_and_cycle (S : Nat)
    (recs : List TFRecord) (B : Nat) (hN : 0 < recs.length)
    (_hB : 0 < B) (hdvd : B ∣ recs.length)
    (hwf : ∀ r ∈ recs, wellFormedRecord S r = true) :
    (∀ (pick : Nat → Fin 5) (k : Nat),
        (shuffleEmit recs B pick k).length = B ∧
        ∀ r ∈ shuffleEmit recs B pick k,
          ∃ la ab ft, parse_record S r = some (la, ab, ft) ∧
            la.dims = [S, S, 1] ∧ ab.dims = [S, S, 2] ∧
            ft.dims = [1000]) ∧
    batchAt recs B (recs.length / B) = batchAt recs B 0 ∧
    (∀ (pick : Nat → Fin 5) (k : Nat),
        (shuffleState recs B pick k).2 = k + 5) := by
  refine ⟨?_, ?_, fun pick k => shuffleState_snd recs B pick k⟩
  · intro pick k
    obtain ⟨m, hm⟩ := shuffleState_buf recs B pick k (pick k)
    constructor
    · rw [shuffleEmit, hm]; simp [batchAt]
    · intro r hr
      rw [shuffleEmit, hm] at hr
      have hw := hwf r (batchAt_mem recs B m hN r hr)
      refine ⟨⟨[S, S, 1], r.image_l⟩, ⟨[S, S, 2], r.image_ab⟩,
        ⟨[1000], r.image_features⟩, ?_, rfl, rfl, rfl⟩
      simp [parse_record, hw]
  · unfold batchAt
    apply List.map_congr_left
    intro j _
    have h1 : recs.length / B * B = recs.length := Nat.div_mul_cancel hdvd
    rw [h1]
    simp [cycleRecord, Nat.add_mod_left]

set_option maxRecDepth 10000 in
/-- Witness for C3: a concrete two-record file at `S = 1`, `B = 1`; the
hypotheses hold, the emitted batch at step 3 has one record, and batch
`N/B` of the repeated stream equals batch `0`. -/
theorem c3_batch_generator_shapes_and_cycle_witness :
    (0 < wRecs.length ∧ 0 < 1 ∧ 1 ∣ wRecs.length ∧
      ∀ r ∈ wRecs, wellFormedRecord 1 r = true) ∧
    (shuffleEmit wRecs 1 wPick 3).length = 1 ∧
    batchAt wRecs 1 (wRecs.length / 1) = batchAt wRecs 1 0 :=
  ⟨⟨by decide, by decide, by decide, by decide⟩,
    ((c3_batch_generator_shapes_and_cycle 1 wRecs 1 (by decide)
      (by decide) (by decide) (by decide)).1 wPick 3).1,
    (c3_batch_generator_shapes_and_cycle 1 wRecs 1 (by decide)
      (by decide) (by decide) (by decide)).2.1⟩

/-- C7: given the library contracts — `resize` returns an array of the
requested shape, MobileNet's head yields 1000 activations, and the
decode step returns images at the requested working size — the builder
decodes every image at the larger of the embedding and model input sizes,
and every record it stores parses under the Record Reader's fixed
`FixedLenFeature` shapes, with luminance dims `(IMAGE_SIZE, IMAGE_SIZE,
1)`, chrominance dims `(IMAGE_SIZE, IMAGE_SIZE, 2)` and feature length
1000. -/
theorem c7_stored_record_dims (env : Env)
    (hres : ∀ a s, (env.resizeTo a s).dims = s ∧
      (env.resizeTo a s).data.length = s.prod)
    (hpred : ∀ a, (env.predict a).length = 1000)
    (hread : ∀ n f a, env.readAndResize n f = some a →
      a.dims = [n, n, 3]) :
    (∀ f X, builderDecode env f = some X →
        X.dims = [max env.EMBEDDING_IMAGE_SIZE env.IMAGE_SIZE,
          max env.EMBEDDING_IMAGE_SIZE env.IMAGE_SIZE, 3]) ∧
    (∀ (listing : List FileName) (B : Nat) (r : TFRecord),
        r ∈ (generate_records env none listing B).outContent.getD [] →
          ∃ la ab ft, parse_record env.IMAGE_SIZE r = some (la, ab, ft) ∧
            la.dims = [env.IMAGE_SIZE, env.IMAGE_SIZE, 1] ∧
            ab.dims = [env.IMAGE_SIZE, env.IMAGE_SIZE, 2] ∧
            ft.dims = [1000]) := by
  constructor
  · intro f X h
    exact hread _ f X h
  · intro listing B r hr
    have hout : (generate_records env none listing B).outContent.getD [] =
        buildLoop env B (sortNames (globJpg listing)) [] [] := rfl
    rw [hout, buildLoop_eq] at hr
    simp only [List.nil_append, List.mem_map] at hr
    obtain ⟨X, _, rfl⟩ := hr
    have hw : wellFormedRecord env.IMAGE_SIZE (recordOfImage env X) =
        true := by
      have hl := (hres (mapArr normalize_l (env.labL X))
        [env.IMAGE_SIZE, env.IMAGE_SIZE, 1]).2
      have hab := (hres (mapArr normalize_ab (env.labAB X))
        [env.IMAGE_SIZE, env.IMAGE_SIZE, 2]).2
      have hft := hpred (env.resizeTo (env.gray3 X)
        [env.EMBEDDING_IMAGE_SIZE, env.EMBEDDING_IMAGE_SIZE, 3])
      simp [wellFormedRecord, recordOfImage, processImage,
        extract_features, hl, hab, hft, Nat.mul_one, Nat.mul_assoc]
    refine ⟨⟨[env.IMAGE_SIZE, env.IMAGE_SIZE, 1],
        (recordOfImage env X).image_l⟩,
      ⟨[env.IMAGE_SIZE, env.IMAGE_SIZE, 2],
        (recordOfImage env X).image_ab⟩,
      ⟨[1000], (recordOfImage env X).image_features⟩,
      ?_, rfl, rfl, rfl⟩
    simp [parse_record, hw]

set_option maxRecDepth 10000 in
/-- Witness for C7: the concrete environment satisfies the library
contracts, and the record the builder stores for a concrete decoded
image parses with the fixed shapes. -/
theorem c7_stored_record_dims_witness :
    ∃ la ab ft,
      parse_record defaultEnv.IMAGE_SIZE wRecord = some (la, ab, ft) ∧
      la.dims = [defaultEnv.IMAGE_SIZE, defaultEnv.IMAGE_SIZE, 1] ∧
      ab.dims = [defaultEnv.IMAGE_SIZE, defaultEnv.IMAGE_SIZE, 2] ∧
      ft.dims = [1000] :=
  (c7_stored_record_dims defaultEnv
    (fun _ s => ⟨rfl, List.length_replicate s.prod 0⟩)
    (fun _ => List.length_replicate 1000 0)
    (fun n f a h => Option.some.inj h ▸ rfl)).2
    [wNameA] 1 wRecord (by decide)

end MobileDeepColorization
